import Mathlib

/-!
Verification of the FX3110_Monitor repository: a shallow embedding in Lean 4
of the log analyzer (src/api/main.py), the polling loop (src/monitor.py),
the Teltonika WAN-source inference (src/collectors/teltonika.py) and the
FX4200 JSON-RPC session client (src/collectors/inseego_fx4200.py),
together with theorems settling the specification's claims about them.

Machine integers are modelled as `Int`, Python float averages as exact
rationals (`ℚ`); fallible calls are modelled with `Option`/`Except`;
Python dictionaries are modelled as structures with the dict's default
values, and `dict.get(k, default)` as plain field access.
-/

namespace FXMon

/-! ## Python-slice and string helpers -/

/-- Python `l[-n:]` for a positive literal `n`: the last `min n (length l)`
elements. -/
def listTakeLast (n : Nat) (l : List α) : List α :=
  l.drop (l.length - n)

/-- Python `l[-n:]` where `n` may be `0`: `l[-0:]` is `l[0:]`, the whole
list. -/
def pyTail (n : Nat) (l : List α) : List α :=
  if n = 0 then l else listTakeLast n l

/-- Python `str(bool)` as printed into the TSV line. -/
def pyBoolStr : Bool → String
  | true => "True"
  | false => "False"

/-- Python truthiness of an optional string followed by `or ''`:
`None` and `""` both render as the empty string. -/
def orEmpty (o : Option String) : String := o.getD ""

/-- Python `value or ''` for an optional integer (`0` is falsy). -/
def intOrEmpty : Option Int → String
  | none => ""
  | some v => if v = 0 then "" else toString v

/-- Leading-match test on character lists (Python `str.startswith` on the
candidate position). -/
def leadsWith : List Char → List Char → Bool
  | [], _ => true
  | _ :: _, [] => false
  | a :: as, b :: bs => a = b && leadsWith as bs

/-- Substring occurrence on character lists; `occursIn n h` is Python
`n in h` for strings. -/
def occursIn (n : List Char) : List Char → Bool
  | [] => n.isEmpty
  | b :: bs => leadsWith n (b :: bs) || occursIn n bs

/-- Python `needle in hay` for strings. -/
def strContains (hay needle : String) : Bool :=
  occursIn needle.toList hay.toList

/-- Python `str.lower()` (ASCII case folding suffices for the interface
names and device-type tags handled by this program). -/
def pyLower (s : String) : String :=
  String.mk (s.toList.map Char.toLower)

/-- Drop leading whitespace from a character list. -/
def dropWs : List Char → List Char
  | [] => []
  | c :: cs => if c.isWhitespace then dropWs cs else c :: cs

/-- Python `str.strip()`. -/
def pyStrip (s : String) : String :=
  String.mk ((dropWs (dropWs s.toList.reverse).reverse))

/-- Whitespace tokenization, Python `str.split()` with no argument:
splits on runs of whitespace and never yields empty tokens. -/
def splitWsAux : List Char → List Char → List (List Char)
  | [], acc => if acc.isEmpty then [] else [acc.reverse]
  | c :: cs, acc =>
      if c.isWhitespace then
        if acc.isEmpty then splitWsAux cs [] else acc.reverse :: splitWsAux cs []
      else splitWsAux cs (c :: acc)

/-- Python `str.split()` (no separator argument). -/
def splitWs (s : String) : List String :=
  (splitWsAux s.toList []).map String.mk

/-- Parse a run of decimal digits; `none` when empty or any non-digit. -/
def parseDigits : List Char → Option Nat
  | [] => none
  | l => go l 0
where
  go : List Char → Nat → Option Nat
    | [], acc => some acc
    | c :: cs, acc => if c.isDigit then go cs (acc * 10 + (c.toNat - 48)) else none

/-- Python `int(token)` on a whitespace-free token: an optional sign
followed by decimal digits. -/
def pyInt : String → Option Int
  | s =>
    match s.toList with
    | '-' :: rest => (parseDigits rest).map (fun n => -(n : Int))
    | '+' :: rest => (parseDigits rest).map (fun n => (n : Int))
    | l => (parseDigits l).map (fun n => (n : Int))

/-! ## Log analyzer data model (src/api/main.py)

A parsed log row (`LogParser._parse_line`), restricted to the fields the
change/anomaly detectors read.  Missing TSV cells parse to `""`
(`row.get(..., "")`), and `latency_ms` to `None`. -/

structure Entry where
  timestamp : String := ""
  success : Bool := true
  latency_ms : Option Int := none
  rsrp : String := ""
  wan_source : String := ""
  active_interface : String := ""
  public_ip : String := ""
  carrier : String := ""
  apn : String := ""
  iccid : String := ""
  device_ipv4 : String := ""
deriving DecidableEq, Repr

structure ChangeEvent where
  timestamp : String
  field : String
  old_value : String
  new_value : String
deriving DecidableEq, Repr

structure AnomalyEvent where
  timestamp : String
  atype : String
  severity : String
deriving DecidableEq, Repr

/-- The watched fields of `detect_changes` (src/api/main.py:136). -/
def watchFields : List String :=
  ["wan_source", "active_interface", "public_ip", "carrier", "apn", "iccid",
   "device_ipv4"]

/-- `entry.get(field, "")` over the watched field names. -/
def getWatched (e : Entry) : String → String
  | "wan_source" => e.wan_source
  | "active_interface" => e.active_interface
  | "public_ip" => e.public_ip
  | "carrier" => e.carrier
  | "apn" => e.apn
  | "iccid" => e.iccid
  | "device_ipv4" => e.device_ipv4
  | _ => ""

/-- The inner field loop of `detect_changes` for one consecutive pair:
a change is recorded when the values differ and the current value is
truthy (src/api/main.py:142-152). -/
def pairChanges (prev curr : Entry) : List ChangeEvent :=
  watchFields.filterMap fun f =>
    let pv := getWatched prev f
    let cv := getWatched curr f
    if pv ≠ cv ∧ cv ≠ "" then
      some ⟨curr.timestamp, f, pv, cv⟩
    else none

/-- The outer loop of `detect_changes`: all consecutive pairs in order. -/
def consecChanges : List Entry → List ChangeEvent
  | a :: b :: rest => pairChanges a b ++ consecChanges (b :: rest)
  | _ => []

/-- `LogParser.detect_changes` (src/api/main.py:128-154). -/
def detect_changes (cache : List Entry) : List ChangeEvent :=
  if cache.length < 2 then []
  else listTakeLast 20 (consecChanges (listTakeLast 100 cache))

/-- The RSRP cell parser used by the analyzer:
`int(str(rsrp_str).split()[0])` guarded by `if rsrp_str:`, with
`ValueError`/`IndexError` mapped to `none` (src/api/main.py:168-174). -/
def parseRsrp (s : String) : Option Int :=
  if s = "" then none
  else
    match splitWs s with
    | [] => none
    | t :: _ => pyInt t

/-- Baseline RSRP samples: the numeric-parseable entries only. -/
def baselineRsrpValues (baseline : List Entry) : List Int :=
  baseline.filterMap fun e => parseRsrp e.rsrp

/-- Baseline latency samples; the comprehension's `if e.get("latency_ms")`
drops both `None` and `0` (src/api/main.py:178). -/
def baselineLatencies (baseline : List Entry) : List Int :=
  baseline.filterMap fun e =>
    match e.latency_ms with
    | some v => if v ≠ 0 then some v else none
    | none => none

/-- An exact fraction `num / den` with a positive denominator, standing
for the Python float `sum(values)/len(values)`.  The averaging and the
threshold comparisons of `detect_anomalies` are modelled in exact
rational arithmetic (the fraction is kept unnormalized so that every
comparison is plain integer arithmetic). -/
structure Frac where
  num : Int
  den : Int
deriving DecidableEq, Repr

/-- The rational value of a `Frac`. -/
def Frac.val (a : Frac) : ℚ := (a.num : ℚ) / (a.den : ℚ)

/-- `x < a - t` for an integer `x`, a fractional average `a` and an
integer threshold `t`, by cross-multiplication (`a.den > 0`). -/
def Frac.gtSubThr (a : Frac) (t x : Int) : Bool :=
  x * a.den < a.num - t * a.den

/-- `x > a + t` for an integer `x`, a fractional average `a` and an
integer threshold `t`, by cross-multiplication (`a.den > 0`). -/
def Frac.ltAddThr (a : Frac) (t x : Int) : Bool :=
  a.num + t * a.den < x * a.den

/-- Python float truthiness of the average: `sum/len` is falsy exactly
when the numerator is zero. -/
def Frac.truthy (a : Frac) : Bool := a.num ≠ 0

/-- `sum(values)/len(values) if values else None`. -/
def avgOpt (l : List Int) : Option Frac :=
  if l.isEmpty then none else some ⟨l.sum, (l.length : Int)⟩

/-- The `rsrp_drop` check for one evaluated entry.  Note the guard
`if avg_rsrp:` is Python truthiness: it skips the check when the baseline
average is `None` or exactly `0` (src/api/main.py:184-197). -/
def rsrpEvent (avgR : Option Frac) (rsrpThr : Int) (e : Entry) : List AnomalyEvent :=
  match avgR with
  | none => []
  | some a =>
    if a.truthy then
      match parseRsrp e.rsrp with
      | some v =>
        if a.gtSubThr rsrpThr v then
          [⟨e.timestamp, "rsrp_drop", if v > -100 then "warning" else "critical"⟩]
        else []
      | none => []
    else []

/-- The `latency_spike` check for one evaluated entry; the guard
`if avg_latency and entry.get("latency_ms")` drops `None`/`0` on both
sides (src/api/main.py:199-207). -/
def latencyEvent (avgL : Option Frac) (latThr : Int) (e : Entry) : List AnomalyEvent :=
  match avgL with
  | none => []
  | some a =>
    if a.truthy then
      match e.latency_ms with
      | some l =>
        if l ≠ 0 ∧ a.ltAddThr latThr l then
          [⟨e.timestamp, "latency_spike", if l < 500 then "warning" else "critical"⟩]
        else []
      | none => []
    else []

/-- The `ping_failure` check for one evaluated entry
(src/api/main.py:209-215). -/
def pingEvent (e : Entry) : List AnomalyEvent :=
  if e.success then [] else [⟨e.timestamp, "ping_failure", "critical"⟩]

/-- All anomaly events generated for one entry of the evaluation half, in
the source's append order. -/
def entryEvents (avgR avgL : Option Frac) (rsrpThr latThr : Int) (e : Entry) :
    List AnomalyEvent :=
  rsrpEvent avgR rsrpThr e ++ latencyEvent avgL latThr e ++ pingEvent e

/-- `LogParser.detect_anomalies` (src/api/main.py:156-217). -/
def detect_anomalies (cache : List Entry) (rsrpThr latThr : Int) :
    List AnomalyEvent :=
  if cache.length < 10 then []
  else
    let recent := listTakeLast 100 cache
    let baseline := recent.take (recent.length / 2)
    let avgR := avgOpt (baselineRsrpValues baseline)
    let avgL := avgOpt (baselineLatencies baseline)
    let check := recent.drop (recent.length / 2)
    listTakeLast 20 (check.flatMap (entryEvents avgR avgL rsrpThr latThr))

/-! ## Analyzer query state (src/api/main.py)

`LogParser` holds a cache (deque of up to 1000 parsed rows).
`reload_logs` re-reads the file; `get_current_status` and `get_recent`
call it, `detect_changes` and `detect_anomalies` do not. -/

structure ParserState where
  cache : List Entry
deriving DecidableEq, Repr

/-- `LogParser.reload_logs`: the cache becomes the last (≤1000) parsed
rows of the on-disk file (src/api/main.py:94-112). -/
def reload_logs (file : List Entry) : ParserState :=
  ⟨listTakeLast 1000 file⟩

/-- `GET /api/status` → `get_current_status`: reloads, then returns the
last cached entry (src/api/main.py:114-121). -/
def api_get_status (file : List Entry) (_st : ParserState) :
    Option Entry × ParserState :=
  let st := reload_logs file
  (st.cache.getLast?, st)

/-- `GET /api/recent` → `get_recent`: reloads, then returns the cache
tail (src/api/main.py:123-126). -/
def api_get_recent (file : List Entry) (_st : ParserState) (count : Nat) :
    List Entry × ParserState :=
  let st := reload_logs file
  (pyTail count st.cache, st)

/-- `GET /api/changes` → `detect_changes`: computes on the cache as it
stands, without reloading (src/api/main.py:128,244-247). -/
def api_detect_changes (_file : List Entry) (st : ParserState) :
    List ChangeEvent × ParserState :=
  (detect_changes st.cache, st)

/-- `GET /api/anomalies` → `detect_anomalies`: computes on the cache as
it stands, without reloading (src/api/main.py:156,250-253). -/
def api_detect_anomalies (_file : List Entry) (st : ParserState)
    (rsrpThr latThr : Int) : List AnomalyEvent × ParserState :=
  (detect_anomalies st.cache rsrpThr latThr, st)

/-- Modelled from the spec for comparison with `api_detect_changes`
(refinement reading of the claim): a change query that reloads its
bounded window fresh from the on-disk log before computing. -/
def freshDetectChanges (file : List Entry) : List ChangeEvent :=
  detect_changes (reload_logs file).cache

/-! ## Collector classes and the scheduler's refresh call
(src/collectors/*.py, src/monitor.py)

`build_cellular_collector` dispatches on `device_type`; the method
tables below list the methods each collector class defines (including
`get_all` inherited from `CellularCollector` in src/collectors/base.py).
Python attribute lookup of a missing method raises `AttributeError`. -/

inductive DeviceType
  | fx3110
  | fx4200
  | rutm50
deriving DecidableEq, Repr

/-- `build_cellular_collector` (src/monitor.py:13-44): `"fx4200"` and
`"rutm50"` (after strip+lower) select those collectors; anything else
defaults to the Inseego FX3110 scraper. -/
def build_cellular_collector (device_type : String) : DeviceType :=
  let dt := pyLower (pyStrip device_type)
  if dt = "fx4200" then .fx4200
  else if dt = "rutm50" then .rutm50
  else .fx3110

/-- Methods defined on each collector class (own methods plus `get_all`
from the abstract base; src/collectors/inseego.py, inseego_fx4200.py,
teltonika.py, base.py). -/
def collectorMethods : DeviceType → List String
  | .fx3110 =>
      ["_fetch_text", "_fetch_json", "_extract_by_id",
       "get_signal_metrics", "get_network_info", "get_connection_status",
       "get_sim_info", "get_device_info", "get_connected_devices", "get_all"]
  | .fx4200 =>
      ["_next_id", "_is_session_valid", "_authenticate", "_ensure_session",
       "_raw_post", "_ubus_call", "refresh_data", "clear_cache",
       "get_signal_metrics", "get_network_info", "get_connection_status",
       "get_sim_info", "get_device_info", "get_sim_slots_detail",
       "get_active_sim_imsi", "switch_sim_by_iccid", "switch_sim_by_imsi",
       "get_all"]
  | .rutm50 =>
      ["_ssh_exec", "_ssh_exec_safe", "refresh_data", "clear_cache",
       "_get_cached", "_get_cached_json", "_fetch_gsmctl_info",
       "_parse_gsmctl_q", "get_signal_metrics", "get_network_info",
       "get_connection_status", "get_sim_info", "get_device_info", "get_all"]

/-- The scheduler's unconditional per-cycle call `cellular.refresh_data()`
(src/monitor.py:96): resolves the attribute, raising `AttributeError`
when the collector class does not define it.  `refreshResult` stands for
whatever bool the resolved method would return. -/
def callRefreshData (d : DeviceType) (refreshResult : Bool) :
    Except String Bool :=
  if "refresh_data" ∈ collectorMethods d then .ok refreshResult
  else .error "AttributeError"

/-! ## One polling cycle of the monitor loop (src/monitor.py:85-143)

Accessor results are the dicts each collector returns; a raised
exception/timeout is `none`, which `safe_get` (src/monitor.py:47-52)
replaces with the empty dict, rendered as empty TSV cells. -/

structure SignalDict where
  rsrp : Option String := none
  rsrq : Option String := none
  snr : Option String := none
  rssi : Option String := none
deriving DecidableEq, Repr

structure NetInfoDict where
  carrier : String := ""
  technology : String := ""
  band : String := ""
  bandwidth : String := ""
deriving DecidableEq, Repr

structure ConnectionDict where
  wan_status : String := ""
  wan_source : String := ""
  device_ipv4 : String := ""
deriving DecidableEq, Repr

structure SimDict where
  apn : String := ""
  iccid : String := ""
  sim_status : String := ""
deriving DecidableEq, Repr

structure DeviceDict where
  model : String := ""
  manufacturer : String := ""
  firmware : String := ""
  imei : String := ""
  serial : String := ""
deriving DecidableEq, Repr

structure PingDict where
  success : Bool := false
  latency_ms : Option Int := none
  source_ip : String := ""
deriving DecidableEq, Repr

/-- The flattened TSV record printed at the end of a cycle
(src/monitor.py:113-141), every cell as its printed string. -/
structure LogRecord where
  timestamp : String
  source_ip : String
  active_interface : String
  dest_ip : String
  success : String
  latency_ms : String
  public_ip : String
  wan_status : String
  wan_source : String
  sim_status : String
  technology : String
  band : String
  bandwidth : String
  device_ipv4 : String
  carrier : String
  apn : String
  iccid : String
  rsrp : String
  rsrq : String
  snr : String
  rssi : String
  model : String
  manufacturer : String
  firmware : String
  imei : String
  serial : String
deriving DecidableEq, Repr

/-- The outcomes of every external call made during one tick of the main
loop; `none` models the call raising (or timing out). -/
structure CycleInput where
  timestamp : String
  dest : String
  publicIpDue : Bool
  /-- outer `none`: `get_public_ip` raised; inner: its `Optional[str]`. -/
  publicIpFetch : Option (Option String)
  signal : Option SignalDict
  netInfo : Option NetInfoDict
  connection : Option ConnectionDict
  simInfo : Option SimDict
  deviceInfo : Option DeviceDict
  ping : Option PingDict
  activeIf : Option String
deriving DecidableEq, Repr

/-- One iteration of `main`'s while-loop (src/monitor.py:85-143): the
public-IP cache update, the five `safe_get`-wrapped accessors (failure
defaults to `{}`), the ping, and the emitted record.  Returns the record
and the updated `last_public_ip`. -/
def monitorCycle (inp : CycleInput) (lastPublicIp : String) :
    LogRecord × String :=
  let lastIp :=
    if inp.publicIpDue then
      let fetched :=
        match inp.publicIpFetch with
        | none => some lastPublicIp
        | some v => v
      match fetched with
      | some s => if s ≠ "" then s else lastPublicIp
      | none => lastPublicIp
    else lastPublicIp
  let signal := inp.signal.getD {}
  let netInfo := inp.netInfo.getD {}
  let connection := inp.connection.getD {}
  let simInfo := inp.simInfo.getD {}
  let deviceInfo := inp.deviceInfo.getD {}
  let ping := inp.ping.getD {}
  let record : LogRecord :=
    { timestamp := inp.timestamp
      source_ip := ping.source_ip
      active_interface := inp.activeIf.getD "unknown"
      dest_ip := inp.dest
      success := pyBoolStr ping.success
      latency_ms := intOrEmpty ping.latency_ms
      public_ip := lastIp
      wan_status := connection.wan_status
      wan_source := connection.wan_source
      sim_status := simInfo.sim_status
      technology := netInfo.technology
      band := netInfo.band
      bandwidth := netInfo.bandwidth
      device_ipv4 := connection.device_ipv4
      carrier := netInfo.carrier
      apn := simInfo.apn
      iccid := simInfo.iccid
      rsrp := orEmpty signal.rsrp
      rsrq := orEmpty signal.rsrq
      snr := orEmpty signal.snr
      rssi := orEmpty signal.rssi
      model := deviceInfo.model
      manufacturer := deviceInfo.manufacturer
      firmware := deviceInfo.firmware
      imei := deviceInfo.imei
      serial := deviceInfo.serial }
  (record, lastIp)

/-! ## Teltonika WAN-source inference
(src/collectors/teltonika.py:229-333, the `mwan3 status` path) -/

/-- The source-classification chain of `get_connection_status`
(src/collectors/teltonika.py:283-291).  The guard `if wan_device:` means
an empty device yields an empty source. -/
def classifyWanSource (wan_device : String) : String :=
  if wan_device = "" then ""
  else if strContains wan_device "mob1s" then "Cellular"
  else if strContains (pyLower wan_device) "eth" ∨
          strContains (pyLower wan_device) "lan" then "Ethernet"
  else if strContains (pyLower wan_device) "wan" then "Ethernet"
  else "Unknown"

/-- Classification rule exactly as the claim words it (for comparison
with `classifyWanSource`): an interface name containing the cellular
token is Cellular; containing "eth"/"lan" is Ethernet; *named* "wan" is
Ethernet; otherwise Unknown. -/
def claimClassifyWanSource (cellToken : String) (name : String) : String :=
  if strContains name cellToken then "Cellular"
  else if strContains (pyLower name) "eth" ∨
          strContains (pyLower name) "lan" then "Ethernet"
  else if name = "wan" then "Ethernet"
  else "Unknown"

/-- First interface whose routing weight is 100%, scanning the regex
matches in order (src/collectors/teltonika.py:252-260). -/
def selectWan100 : List (String × Int) → Option String
  | [] => none
  | (i, p) :: rest => if p = 100 then some i else selectWan100 rest

/-- Python dict lookup for the `iface_status` dict built by iteration
(later duplicate keys overwrite earlier ones). -/
def dictGet (st : List (String × String)) (k : String) : Option String :=
  (st.reverse.find? (fun p => p.1 = k)).map (·.2)

/-- `status in ('online', 'up')` on the lowercased status. -/
def onlineUp (o : Option String) : Bool :=
  o = some "online" ∨ o = some "up"

/-- The parsed content of a non-empty `mwan3 status` reply: the
`iface (NN%)` matches in text order, and the
`interface X is STATUS` lines (statuses lowercased). -/
structure MwanParse where
  pairs : List (String × Int)
  ifaceStatus : List (String × String)
deriving DecidableEq, Repr

/-- Selection of `(wan_device, wan_up)` from the mwan3 report: first
interface at 100%, else the for-else fallback over online interfaces
preferring `wan`, then `mob1s1a1`, then `mob1s2a1`
(src/collectors/teltonika.py:247-280). -/
def mwanSelect (mp : MwanParse) : String × Bool :=
  match selectWan100 mp.pairs with
  | some i => (i, true)
  | none =>
      if onlineUp (dictGet mp.ifaceStatus "wan") then ("wan", true)
      else if onlineUp (dictGet mp.ifaceStatus "mob1s1a1") then
        ("mob1s1a1", true)
      else if onlineUp (dictGet mp.ifaceStatus "mob1s2a1") then
        ("mob1s2a1", true)
      else ("", false)

/-- A parsed `ubus call network.interface.X status` reply. -/
structure UbusIface where
  up : Bool := false
  ipv4_addresses : List String := []
deriving DecidableEq, Repr

/-- `TeltonikaCollector.get_connection_status`, main (mwan3) path
(src/collectors/teltonika.py:229-333).  `mwan` is `none` when
`mwan3 status` returned empty text; `wanIface`/`cellIface` are `none`
when the corresponding ubus call raised or failed to parse. -/
def teltonika_get_connection_status (mwan : Option MwanParse)
    (wanIface : Option UbusIface) (cellIface : Option UbusIface) :
    ConnectionDict :=
  let sel := match mwan with
    | some mp => mwanSelect mp
    | none => ("", false)
  let wan_device := sel.1
  let wan_up := sel.2
  let wan_source := classifyWanSource wan_device
  let device_ipv4 :=
    match wanIface with
    | some w => (w.ipv4_addresses.head?).getD ""
    | none => ""
  let fb :=
    if wan_up then (wan_up, wan_source, device_ipv4)
    else
      match cellIface with
      | some c =>
        if c.up ∨ c.ipv4_addresses ≠ [] then
          (true, "Cellular",
           match c.ipv4_addresses.head? with
           | some a => a
           | none => device_ipv4)
        else (wan_up, wan_source, device_ipv4)
      | none => (wan_up, wan_source, device_ipv4)
  { wan_status := if fb.1 then "Connected" else "Disconnected"
    wan_source := fb.2.1
    device_ipv4 := fb.2.2 }

/-! ## FX4200 session JSON-RPC client (src/collectors/inseego_fx4200.py)

The HTTPS transport is modelled as two response streams consumed in
order: one for the authentication posts of `_authenticate` and one for
the method-call posts of `_ubus_call`; a stream element is the parsed
JSON reply, or an error for a raised `URLError`/timeout.  Mutations of
the session state persist across a raised exception, as they do on the
Python object, so every step returns the updated state alongside its
`Except` result.  `time.time()` is frozen at `cfg.now` for the duration
of one call. -/

/-- A flat string dict, standing for the JSON object payloads whose
contents the session client never inspects. -/
abbrev UDict := List (String × String)

/-- One element of a JSON-RPC `result` array: `result[0]` is normally an
integer return code and `result[1]`, when present, a data object. -/
inductive RItem
  | code (n : Int)
  | dat (d : UDict)
deriving DecidableEq, Repr

/-- A parsed JSON-RPC reply: either a reply carrying an `"error"` key,
or one with a `result` array. -/
inductive UbusResp
  | err
  | result (items : List RItem)
deriving DecidableEq, Repr

/-- `resp.get("result", [])`. -/
def resultItems : UbusResp → List RItem
  | .err => []
  | .result items => items

/-- `len(result) >= 2 and isinstance(result[1], dict)`, yielding
`result[1]` (src/collectors/inseego_fx4200.py:157,169). -/
def item1Dict (items : List RItem) : Option UDict :=
  match items.get? 1 with
  | some (.dat d) => some d
  | _ => none

/-- `len(result) >= 1 and result[0] != 0`; in Python a dict in position 0
also compares unequal to 0 (src/collectors/inseego_fx4200.py:160). -/
def item0NonZero (items : List RItem) : Bool :=
  match items.head? with
  | none => false
  | some (.code n) => n ≠ 0
  | some (.dat _) => true

/-- Errors an RPC step can raise: a transport failure from `urlopen`, or
the `RuntimeError` of a failed `_authenticate`. -/
inductive RpcErr
  | transport
  | authFailed
deriving DecidableEq, Repr

structure RpcCfg where
  /-- `session_refresh` seconds (constructor default 500). -/
  sessionRefresh : Int := 500
  /-- `time.time()` during this call. -/
  now : Int := 0
deriving DecidableEq, Repr

instance {ε α : Type} [DecidableEq ε] [DecidableEq α] :
    DecidableEq (Except ε α) := fun x y =>
  match x, y with
  | .ok a, .ok b =>
      if h : a = b then .isTrue (by rw [h])
      else .isFalse (fun hh => h (by cases hh; rfl))
  | .error a, .error b =>
      if h : a = b then .isTrue (by rw [h])
      else .isFalse (fun hh => h (by cases hh; rfl))
  | .ok _, .error _ => .isFalse (fun hh => by cases hh)
  | .error _, .ok _ => .isFalse (fun hh => by cases hh)

/-- The mutable session/transport state of `InseegoFX4200Collector`. -/
structure RpcState where
  token : Option String := none
  created : Int := 0
  /-- remaining replies to `_raw_post` of authentication payloads. -/
  authResponses : List (Except Unit (Option String)) := []
  /-- remaining replies to `_raw_post` of method-call payloads. -/
  callResponses : List (Except Unit UbusResp) := []
  /-- posts of the current method-call payload (for retry counting). -/
  callPosts : Nat := 0
  authPosts : Nat := 0
deriving DecidableEq, Repr

/-- `_is_session_valid` (src/collectors/inseego_fx4200.py:87-90). -/
def isSessionValid (cfg : RpcCfg) (s : RpcState) : Bool :=
  s.token.isSome && decide (cfg.now - s.created < cfg.sessionRefresh)

/-- `_authenticate` (src/collectors/inseego_fx4200.py:92-113): posts the
login payload; a reply carrying a `session_token` stores it with the
current time, anything else raises. -/
def authenticate (cfg : RpcCfg) (s : RpcState) :
    RpcState × Except RpcErr String :=
  match s.authResponses with
  | [] => ({ s with authPosts := s.authPosts + 1 }, .error .transport)
  | r :: rest =>
    let s := { s with authResponses := rest, authPosts := s.authPosts + 1 }
    match r with
    | .error _ => (s, .error .transport)
    | .ok none => (s, .error .authFailed)
    | .ok (some t) =>
      ({ s with token := some t, created := cfg.now }, .ok t)

/-- `_ensure_session` (src/collectors/inseego_fx4200.py:115-118). -/
def ensureSession (cfg : RpcCfg) (s : RpcState) :
    RpcState × Except RpcErr String :=
  if isSessionValid cfg s then (s, .ok (s.token.getD ""))
  else authenticate cfg s

/-- `_raw_post` of the method-call payload
(src/collectors/inseego_fx4200.py:122-135), consuming the next call
reply. -/
def rawPostCall (s : RpcState) : RpcState × Except RpcErr UbusResp :=
  match s.callResponses with
  | [] => ({ s with callPosts := s.callPosts + 1 }, .error .transport)
  | r :: rest =>
    let s := { s with callResponses := rest, callPosts := s.callPosts + 1 }
    match r with
    | .error _ => (s, .error .transport)
    | .ok resp => (s, .ok resp)

/-- The tail of `_ubus_call` after the error-retry resolution
(src/collectors/inseego_fx4200.py:156-171): return `result[1]` when the
reply is well-shaped; on a bare non-zero return code, discard the token,
re-authenticate and retry once more; otherwise return `{}`. -/
def finishCall (cfg : RpcCfg) (s : RpcState) (resp : UbusResp) :
    RpcState × Except RpcErr UDict :=
  let items := resultItems resp
  match item1Dict items with
  | some d => (s, .ok d)
  | none =>
    if item0NonZero items then
      let s := { s with token := none }
      let (s, tr) := ensureSession cfg s
      match tr with
      | .error e => (s, .error e)
      | .ok _ =>
        let (s, pr) := rawPostCall s
        match pr with
        | .error e => (s, .error e)
        | .ok resp2 =>
          match item1Dict (resultItems resp2) with
          | some d => (s, .ok d)
          | none => (s, .ok [])
    else (s, .ok [])

/-- `_ubus_call` (src/collectors/inseego_fx4200.py:137-171): ensure a
session, post; on a reply carrying `"error"`, discard the token,
re-authenticate and post again; then resolve the reply shape via
`finishCall`. -/
def ubusCall (cfg : RpcCfg) (s0 : RpcState) :
    RpcState × Except RpcErr UDict :=
  let (s, tr) := ensureSession cfg s0
  match tr with
  | .error e => (s, .error e)
  | .ok _ =>
    let (s, pr) := rawPostCall s
    match pr with
    | .error e => (s, .error e)
    | .ok resp =>
      match resp with
      | .err =>
        let s := { s with token := none }
        let (s, tr2) := ensureSession cfg s
        match tr2 with
        | .error e => (s, .error e)
        | .ok _ =>
          let (s, pr2) := rawPostCall s
          match pr2 with
          | .error e => (s, .error e)
          | .ok resp2 => finishCall cfg s resp2
      | .result _ => finishCall cfg s resp

/-- The cache keys fetched by `refresh_data`, in call order
(src/collectors/inseego_fx4200.py:181-219). -/
def refreshKeys : List String :=
  ["cell_stats", "cell_5g_stats", "hw_info", "model_name", "sys_version",
   "ecgi", "wan_stats", "conn_state", "sim_status", "subscriber",
   "active_sim", "sim_slots", "wan_iface"]

/-- The sequence of `_ubus_call`s inside `refresh_data`'s try block,
accumulating the `data` dict; the first raised exception aborts the
batch. -/
def runBatch (cfg : RpcCfg) : List String → RpcState →
    RpcState × Except RpcErr (List (String × UDict))
  | [], s => (s, .ok [])
  | k :: ks, s =>
    let (s, r) := ubusCall cfg s
    match r with
    | .error e => (s, .error e)
    | .ok d =>
      match runBatch cfg ks s with
      | (s', .ok rest) => (s', .ok ((k, d) :: rest))
      | (s', .error e) => (s', .error e)

/-- The whole collector state: session plus the `_cached` bundle. -/
structure FxState where
  rpc : RpcState := {}
  cached : List (String × UDict) := []
deriving DecidableEq, Repr

/-- `refresh_data` (src/collectors/inseego_fx4200.py:175-225): run the
fixed batch inside try/except; only after every call has completed is
`_cached` replaced and `True` returned; any exception is caught, `False`
is returned and the previous bundle is kept. -/
def refreshData (cfg : RpcCfg) (st : FxState) : Bool × FxState :=
  let (s, er) := ensureSession cfg st.rpc
  match er with
  | .error _ => (false, { st with rpc := s })
  | .ok _ =>
    match runBatch cfg refreshKeys s with
    | (s', .ok data) => (true, { rpc := s', cached := data })
    | (s', .error _) => (false, { st with rpc := s' })

/-! ## Concrete test fixtures used by the claim theorems -/

/-- A fully successful polling cycle (all collector calls return). -/
def c2cycleOk : CycleInput :=
  { timestamp := "2024-01-01 00:00:00.000", dest := "8.8.8.8",
    publicIpDue := true, publicIpFetch := some (some "1.2.3.4"),
    signal := some { rsrp := some "-90" },
    netInfo := some { carrier := "Verizon" },
    connection := some { wan_status := "Connected", wan_source := "Cellular",
                         device_ipv4 := "10.0.0.2" },
    simInfo := some { apn := "vzwinternet" },
    deviceInfo := some { model := "FX3110" },
    ping := some { success := true, latency_ms := some 12,
                   source_ip := "192.168.1.5" },
    activeIf := some "eth0" }

/-- The next cycle, in which `get_connection_status` and
`get_signal_metrics` raise. -/
def c2cycleFail : CycleInput :=
  { c2cycleOk with
    timestamp := "2024-01-01 00:00:05.000"
    connection := none
    signal := none }

/-- Session state for the C3 trace: a valid token, a first reply carrying
an error, a retried reply carrying a bare non-zero return code, and a
final well-shaped reply; authentication always succeeds. -/
def c3trace : RpcState :=
  { token := some "tok0", created := 0,
    authResponses := [.ok (some "tok1"), .ok (some "tok2")],
    callResponses := [.ok .err, .ok (.result [.code 6]),
                      .ok (.result [.code 0, .dat [("k", "v")]])] }

/-- Session state for the C3 trace in which the retried call fails again
with an error reply. -/
def c3doubleErr : RpcState :=
  { token := some "tok0", created := 0,
    authResponses := [.ok (some "tok1")],
    callResponses := [.ok .err, .ok .err] }

/-- A cache left over from an earlier reload: two entries with a carrier
change. -/
def c4staleCache : List Entry :=
  [{ timestamp := "t1", carrier := "AT&T" },
   { timestamp := "t2", carrier := "Verizon" }]

/-- Ten buffered records whose baseline half has RSRP readings
[-90,-92,-91,-89,-90] and whose evaluation half contains one -105 dBm
reading (the spec's end-to-end example). -/
def c7example : List Entry :=
  [{ timestamp := "t1", rsrp := "-90" }, { timestamp := "t2", rsrp := "-92" },
   { timestamp := "t3", rsrp := "-91" }, { timestamp := "t4", rsrp := "-89" },
   { timestamp := "t5", rsrp := "-90" },
   { timestamp := "t6", rsrp := "-105" }, { timestamp := "t7" },
   { timestamp := "t8" }, { timestamp := "t9" }, { timestamp := "t10" }]

/-- Ten buffered records whose baseline RSRP readings average exactly 0,
with an evaluation reading of -50 (far below average − threshold). -/
def c7zeroAvg : List Entry :=
  [{ timestamp := "t1", rsrp := "5" }, { timestamp := "t2", rsrp := "-5" },
   { timestamp := "t3", rsrp := "0" }, { timestamp := "t4", rsrp := "10" },
   { timestamp := "t5", rsrp := "-10" },
   { timestamp := "t6", rsrp := "-50" }, { timestamp := "t7" },
   { timestamp := "t8" }, { timestamp := "t9" }, { timestamp := "t10" }]

/-- Ten buffered records in which only the first (baseline-half) entry
has a failed connectivity probe. -/
def c8failFirst : List Entry :=
  [{ timestamp := "t1", success := false }, { timestamp := "t2" },
   { timestamp := "t3" }, { timestamp := "t4" }, { timestamp := "t5" },
   { timestamp := "t6" }, { timestamp := "t7" },
   { timestamp := "t8" }, { timestamp := "t9" }, { timestamp := "t10" }]

/-- A small cache with one carrier change followed by an
empty-carrier reading. -/
def c9cache : List Entry :=
  [{ timestamp := "t1", carrier := "AT&T" },
   { timestamp := "t2", carrier := "Verizon" },
   { timestamp := "t3", carrier := "" }]

/-- A well-shaped RPC reply for the C10 fixtures. -/
def c10okResp : Except Unit UbusResp :=
  .ok (.result [.code 0, .dat [("a", "b")]])

/-- Collector state with enough replies for a full 13-call batch. -/
def c10good : FxState :=
  { rpc := { token := some "tok", created := 0,
             callResponses := List.replicate 13 c10okResp },
    cached := [("old", [("x", "y")])] }

/-- Collector state whose transport dies after 5 replies, with a
previously cached bundle. -/
def c10fail : FxState :=
  { rpc := { token := some "tok", created := 0,
             callResponses := List.replicate 5 c10okResp },
    cached := [("old", [("x", "y")])] }

/-! # Theorems

Shared helper lemmas first, then one theorem per claim (with its
counterexample and witness where applicable). -/

theorem listTakeLast_length_le (n : Nat) (l : List α) :
    (listTakeLast n l).length ≤ n := by
  simp only [listTakeLast, List.length_drop]
  omega

theorem mem_of_mem_listTakeLast {a : α} {n : Nat} {l : List α}
    (h : a ∈ listTakeLast n l) : a ∈ l :=
  List.mem_of_mem_drop h

theorem listTakeLast_suffix (n : Nat) (l : List α) :
    List.IsSuffix (listTakeLast n l) l :=
  List.drop_suffix _ _

/-- Every event of the rsrp check carries the entry's timestamp and the
`rsrp_drop` type. -/
theorem rsrpEvent_shape (avgR : Option Frac) (rt : Int) (e : Entry) :
    ∀ ev ∈ rsrpEvent avgR rt e,
      ev.timestamp = e.timestamp ∧ ev.atype = "rsrp_drop" := by
  intro ev hev
  unfold rsrpEvent at hev
  cases avgR with
  | none => simp at hev
  | some a =>
    by_cases ht : a.truthy
    · simp only [ht, if_true] at hev
      cases hp : parseRsrp e.rsrp with
      | none => simp only [hp] at hev; simp at hev
      | some v =>
        simp only [hp] at hev
        by_cases hc : a.gtSubThr rt v
        · simp only [hc, if_true, List.mem_singleton] at hev
          subst hev
          exact ⟨rfl, rfl⟩
        · simp [hc] at hev
    · simp [ht] at hev

/-- Every event of the latency check carries the entry's timestamp and
the `latency_spike` type. -/
theorem latencyEvent_shape (avgL : Option Frac) (lt : Int) (e : Entry) :
    ∀ ev ∈ latencyEvent avgL lt e,
      ev.timestamp = e.timestamp ∧ ev.atype = "latency_spike" := by
  intro ev hev
  unfold latencyEvent at hev
  cases avgL with
  | none => simp at hev
  | some a =>
    by_cases ht : a.truthy
    · simp only [ht, if_true] at hev
      cases hp : e.latency_ms with
      | none => simp only [hp] at hev; simp at hev
      | some l =>
        simp only [hp] at hev
        by_cases hc : l ≠ 0 ∧ a.ltAddThr lt l
        · simp only [if_pos hc, List.mem_singleton] at hev
          subst hev
          exact ⟨rfl, rfl⟩
        · simp only [if_neg hc] at hev; simp at hev
    · simp [ht] at hev

/-- The ping check emits exactly the one critical event, and only for a
failed probe. -/
theorem pingEvent_shape (e : Entry) :
    ∀ ev ∈ pingEvent e,
      ev = ⟨e.timestamp, "ping_failure", "critical"⟩ ∧ e.success = false := by
  intro ev hev
  unfold pingEvent at hev
  by_cases hs : e.success
  · simp [hs] at hev
  · simp only [if_neg hs, List.mem_singleton] at hev
    exact ⟨hev, by simpa using hs⟩

/-- Every anomaly event generated for an evaluation-half entry carries
that entry's timestamp. -/
theorem entryEvents_timestamp (avgR avgL : Option Frac) (rt lt : Int)
    (e : Entry) : ∀ ev ∈ entryEvents avgR avgL rt lt e,
      ev.timestamp = e.timestamp := by
  intro ev hev
  unfold entryEvents at hev
  simp only [List.mem_append] at hev
  rcases hev with (h | h) | h
  · exact (rsrpEvent_shape avgR rt e ev h).1
  · exact (latencyEvent_shape avgL lt e ev h).1
  · rw [(pingEvent_shape e ev h).1]

/-- Claim C6: `detect_anomalies` returns at most 20 events, every
returned event is drawn from the most recent 100 buffered records (its
evaluation half), and fewer than 10 buffered records yield no anomalies
at all. -/
theorem c6_anomalies_window :
    ∀ (cache : List Entry) (rsrpThr latThr : Int),
    (detect_anomalies cache rsrpThr latThr).length ≤ 20 ∧
    (cache.length < 10 → detect_anomalies cache rsrpThr latThr = []) ∧
    (∀ ev ∈ detect_anomalies cache rsrpThr latThr,
      ∃ e ∈ (listTakeLast 100 cache).drop ((listTakeLast 100 cache).length / 2),
        ev.timestamp = e.timestamp) := by
  intro cache rt lt
  refine ⟨?_, ?_, ?_⟩
  · unfold detect_anomalies
    split
    · simp
    · exact listTakeLast_length_le _ _
  · intro h
    unfold detect_anomalies
    rw [if_pos h]
  · intro ev hev
    simp only [detect_anomalies] at hev
    split at hev
    · simp at hev
    · have hev' := mem_of_mem_listTakeLast hev
      rcases List.mem_flatMap.mp hev' with ⟨e, he, hin⟩
      exact ⟨e, he, entryEvents_timestamp _ _ _ _ e ev hin⟩

/-- Witness for C6 at concrete inputs: an empty buffer yields no
anomalies, and the one event of the `c7example` buffer is drawn from the
evaluation half of its window. -/
theorem c6_anomalies_window_witness :
    detect_anomalies [] 10 50 = [] ∧
    (detect_anomalies c7example 10 50).length ≤ 20 ∧
    (∃ e ∈ (listTakeLast 100 c7example).drop
        ((listTakeLast 100 c7example).length / 2),
      (AnomalyEvent.mk "t6" "rsrp_drop" "critical").timestamp = e.timestamp) :=
  ⟨(c6_anomalies_window [] 10 50).2.1 (by decide),
   (c6_anomalies_window c7example 10 50).1,
   (c6_anomalies_window c7example 10 50).2.2 ⟨"t6", "rsrp_drop", "critical"⟩
     (by decide)⟩

/-- Every change emitted for one consecutive pair has a truthy new value
and a watched field. -/
theorem pairChanges_props (prev curr : Entry) :
    ∀ c ∈ pairChanges prev curr,
      c.new_value ≠ "" ∧ c.field ∈ watchFields := by
  intro c hc
  rcases List.mem_filterMap.mp hc with ⟨f, hf, heq⟩
  dsimp only at heq
  split at heq
  · rename_i hcond
    cases heq
    exact ⟨hcond.2, hf⟩
  · simp at heq

/-- Every change in `consecChanges` comes from some consecutive pair. -/
theorem consecChanges_mem :
    ∀ (l : List Entry) (c : ChangeEvent), c ∈ consecChanges l →
      ∃ p q, c ∈ pairChanges p q := by
  intro l
  induction l with
  | nil => intro c hc; simp [consecChanges] at hc
  | cons a t ih =>
    cases t with
    | nil => intro c hc; simp [consecChanges] at hc
    | cons b rest =>
      intro c hc
      simp only [consecChanges] at hc
      rcases List.mem_append.mp hc with h | h
      · exact ⟨a, b, h⟩
      · exact ih c h

/-- Claim C9: every change event returned by `detect_changes` has a
non-empty `new_value`, its field is one of the watched fields, and at
most the 20 most recent change events of the window are returned. -/
theorem c9_changes_valid :
    ∀ (cache : List Entry),
    (detect_changes cache).length ≤ 20 ∧
    (∀ c ∈ detect_changes cache, c.new_value ≠ "" ∧ c.field ∈ watchFields) ∧
    List.IsSuffix (detect_changes cache)
      (consecChanges (listTakeLast 100 cache)) := by
  intro cache
  refine ⟨?_, ?_, ?_⟩
  · unfold detect_changes
    split
    · simp
    · exact listTakeLast_length_le _ _
  · intro c hc
    unfold detect_changes at hc
    split at hc
    · simp at hc
    · have hc' := mem_of_mem_listTakeLast hc
      rcases consecChanges_mem _ c hc' with ⟨p, q, hpq⟩
      exact pairChanges_props p q c hpq
  · unfold detect_changes
    split
    · exact List.nil_suffix
    · exact listTakeLast_suffix _ _

/-- Witness for C9 at a concrete cache: the single returned change has a
non-empty new value on a watched field. -/
theorem c9_changes_valid_witness :
    (ChangeEvent.mk "t2" "carrier" "AT&T" "Verizon").new_value ≠ "" ∧
    (ChangeEvent.mk "t2" "carrier" "AT&T" "Verizon").field ∈ watchFields :=
  (c9_changes_valid c9cache).2.1 ⟨"t2", "carrier", "AT&T", "Verizon"⟩
    (by decide)

/-- Counterexample to claim C8 as stated: the first buffered record has
a failed connectivity probe, yet `detect_anomalies` yields no
`ping_failure` for it — the failed entry sits in the baseline half, and
only evaluation-half entries are checked. -/
theorem c8_counterexample :
    (∃ e ∈ c8failFirst, e.success = false) ∧
    detect_anomalies c8failFirst 10 50 = [] := by decide

/-- The rsrp check never emits a `ping_failure` event. -/
theorem rsrpEvent_no_ping (avgR : Option Frac) (rt : Int) (e : Entry) :
    (rsrpEvent avgR rt e).countP (fun ev => ev.atype == "ping_failure") = 0 :=
  List.countP_eq_zero.mpr fun ev hev => by
    rw [(rsrpEvent_shape avgR rt e ev hev).2]
    decide

/-- The latency check never emits a `ping_failure` event. -/
theorem latencyEvent_no_ping (avgL : Option Frac) (lt : Int) (e : Entry) :
    (latencyEvent avgL lt e).countP (fun ev => ev.atype == "ping_failure") = 0 :=
  List.countP_eq_zero.mpr fun ev hev => by
    rw [(latencyEvent_shape avgL lt e ev hev).2]
    decide

/-- Claim C8 amended: for every entry of the *evaluation half*, the
generated events contain exactly one `ping_failure` exactly when the
probe failed, always with severity `critical` and the entry's timestamp,
regardless of the entry's signal or latency values (the final result is
then the 20 most recent events across the half). -/
theorem c8_ping_failure_eval_half :
    ∀ (avgR avgL : Option Frac) (rt lt : Int) (e : Entry),
    (entryEvents avgR avgL rt lt e).countP
        (fun ev => ev.atype == "ping_failure") =
      (if e.success then 0 else 1) ∧
    (∀ ev ∈ entryEvents avgR avgL rt lt e, ev.atype = "ping_failure" →
      ev = ⟨e.timestamp, "ping_failure", "critical"⟩) := by
  intro avgR avgL rt lt e
  constructor
  · unfold entryEvents
    rw [List.countP_append, List.countP_append,
      rsrpEvent_no_ping, latencyEvent_no_ping]
    unfold pingEvent
    by_cases hs : e.success
    · simp [hs]
    · simp [if_neg hs, hs, List.countP_cons, List.countP_nil]
  · intro ev hev htype
    unfold entryEvents at hev
    simp only [List.mem_append] at hev
    rcases hev with (h | h) | h
    · rw [(rsrpEvent_shape avgR rt e ev h).2] at htype
      exact absurd htype (by decide)
    · rw [(latencyEvent_shape avgL lt e ev h).2] at htype
      exact absurd htype (by decide)
    · exact (pingEvent_shape e ev h).1

/-- Witness for C8's amended rule: a failed probe with strong signal and
no latency yields exactly the one critical `ping_failure`. -/
theorem c8_ping_failure_eval_half_witness :
    (entryEvents none none 10 50 { timestamp := "t1", success := false }).countP
        (fun ev => ev.atype == "ping_failure") =
      (if ({ timestamp := "t1", success := false } : Entry).success then 0 else 1) :=
  (c8_ping_failure_eval_half none none 10 50
    { timestamp := "t1", success := false }).1

/-- Counterexample to claim C7 as stated: with baseline readings
averaging exactly 0 and an evaluation reading of -50 (far below
average − threshold = -10), no `rsrp_drop` is flagged, because the
source's truthiness guard `if avg_rsrp:` skips a zero average. -/
theorem c7_counterexample :
    avgOpt (baselineRsrpValues ((listTakeLast 100 c7zeroAvg).take
        ((listTakeLast 100 c7zeroAvg).length / 2))) = some ⟨0, 5⟩ ∧
    (∃ e ∈ (listTakeLast 100 c7zeroAvg).drop
        ((listTakeLast 100 c7zeroAvg).length / 2),
      parseRsrp e.rsrp = some (-50)) ∧
    Frac.gtSubThr ⟨0, 5⟩ 10 (-50) = true ∧
    detect_anomalies c7zeroAvg 10 50 = [] := by decide

/-- Claim C7 amended: an evaluation-half entry with a parseable RSRP
value `v` is flagged `rsrp_drop` exactly when the baseline average
exists, is nonzero (the truthiness guard), and `v` is below
average − threshold; severity is `critical` exactly when `v ≤ -100`.
The spec's end-to-end example holds: baseline [-90,-92,-91,-89,-90]
with threshold 10 and an evaluation reading of -105 yields exactly one
critical `rsrp_drop`. -/
theorem c7_rsrp_drop_rule :
    (∀ (avgR : Option Frac) (thr : Int) (e : Entry) (a : Frac) (v : Int),
      avgR = some a → parseRsrp e.rsrp = some v →
      rsrpEvent avgR thr e =
        (if a.truthy ∧ a.gtSubThr thr v then
          [⟨e.timestamp, "rsrp_drop",
            if v ≤ -100 then "critical" else "warning"⟩]
         else [])) ∧
    (∀ (avgR : Option Frac) (thr : Int) (e : Entry),
      parseRsrp e.rsrp = none → rsrpEvent avgR thr e = []) ∧
    detect_anomalies c7example 10 50 = [⟨"t6", "rsrp_drop", "critical"⟩] := by
  refine ⟨?_, ?_, by decide⟩
  · intro avgR thr e a v ha hv
    subst ha
    simp only [rsrpEvent, hv]
    by_cases ht : a.truthy
    · by_cases hc : a.gtSubThr thr v
      · by_cases hle : v ≤ -100
        · simp [ht, hc, hle, show ¬ (v > -100) from not_lt.mpr hle]
        · simp [ht, hc, hle, show v > -100 from not_le.mp hle]
      · simp [ht, hc]
    · simp [ht]
  · intro avgR thr e hv
    unfold rsrpEvent
    cases avgR with
    | none => rfl
    | some a =>
      by_cases ht : a.truthy
      · simp [ht, hv]
      · simp [ht]

/-- Witness for C7's amended rule at the spec's example numbers: the
baseline average -452/5 = -90.4 with threshold 10 flags -105 as a
critical drop. -/
theorem c7_rsrp_drop_rule_witness :
    rsrpEvent (some ⟨-452, 5⟩) 10 { timestamp := "t6", rsrp := "-105" } =
      [⟨"t6", "rsrp_drop", "critical"⟩] := by
  rw [c7_rsrp_drop_rule.1 (some ⟨-452, 5⟩) 10
    { timestamp := "t6", rsrp := "-105" } ⟨-452, 5⟩ (-105) rfl (by decide)]
  decide

/-- `selectWan100` picks the first interface whose weight is 100%. -/
theorem selectWan100_eq (pairs : List (String × Int)) :
    selectWan100 pairs =
      ((pairs.filter fun p => p.2 == 100).head?).map Prod.fst := by
  induction pairs with
  | nil => rfl
  | cons p rest ih =>
    by_cases h : p.2 = 100
    · simp [selectWan100, h, List.filter_cons]
    · simp [selectWan100, h, List.filter_cons, ih]

/-- Claim C5 amended: when the failover report shows exactly one
interface at 100% routing weight, `get_connection_status` selects that
interface and classifies it by `classifyWanSource` — which maps a name
*containing* "wan" (not only one named "wan") to Ethernet; the spec's
concrete example `wan (100%)`, `mob1s1a1 (0%)` yields
wan device "wan" with source "Ethernet". -/
theorem c5_wan_inference :
    (∀ (mp : MwanParse) (ifc : String) (wanIface cellIface : Option UbusIface),
      mp.pairs.filter (fun p => p.2 == 100) = [(ifc, 100)] →
      mwanSelect mp = (ifc, true) ∧
      (teltonika_get_connection_status (some mp) wanIface cellIface).wan_source
        = classifyWanSource ifc ∧
      (teltonika_get_connection_status (some mp) wanIface cellIface).wan_status
        = "Connected") ∧
    mwanSelect ⟨[("wan", 100), ("mob1s1a1", 0)], []⟩ = ("wan", true) ∧
    teltonika_get_connection_status (some ⟨[("wan", 100), ("mob1s1a1", 0)], []⟩)
      none none = ⟨"Connected", "Ethernet", ""⟩ := by
  refine ⟨?_, by decide, by decide⟩
  intro mp ifc wi ci hone
  have hsel : mwanSelect mp = (ifc, true) := by
    unfold mwanSelect
    rw [selectWan100_eq, hone]
    rfl
  refine ⟨hsel, ?_, ?_⟩ <;>
    simp [teltonika_get_connection_status, hsel]

/-- Witness for C5's amended rule at the spec's example report. -/
theorem c5_wan_inference_witness :
    mwanSelect ⟨[("wan", 100), ("mob1s1a1", 0)], []⟩ = ("wan", true) ∧
    (teltonika_get_connection_status
        (some ⟨[("wan", 100), ("mob1s1a1", 0)], []⟩) none none).wan_source
      = classifyWanSource "wan" :=
  ⟨(c5_wan_inference.1 ⟨[("wan", 100), ("mob1s1a1", 0)], []⟩ "wan" none none
      (by decide)).1,
   (c5_wan_inference.1 ⟨[("wan", 100), ("mob1s1a1", 0)], []⟩ "wan" none none
      (by decide)).2.1⟩

/-- Counterexample to claim C5 as stated: an interface named `wwan0` at
100% weight is classified Ethernet by the code (substring "wan" match),
whereas the claim's rule (cellular token / eth / lan / *named* "wan" /
otherwise Unknown) classifies it Unknown. -/
theorem c5_counterexample :
    teltonika_get_connection_status (some ⟨[("wwan0", 100)], []⟩) none none =
      ⟨"Connected", "Ethernet", ""⟩ ∧
    claimClassifyWanSource "mob1s1a1" "wwan0" = "Unknown" ∧
    claimClassifyWanSource "mob1s" "wwan0" = "Unknown" ∧
    ("Ethernet" : String) ≠ "Unknown" := by decide

/-- Counterexample to claim C4 as stated: with an empty on-disk log but a
stale two-entry cache left by an earlier reload, the changes query
reports a change, while a fresh reload of the same file reports none —
so the query's result does not depend only on the current file. -/
theorem c4_counterexample :
    (api_detect_changes ([] : List Entry) ⟨c4staleCache⟩).1 =
      [⟨"t2", "carrier", "AT&T", "Verizon"⟩] ∧
    freshDetectChanges ([] : List Entry) = [] ∧
    (api_detect_changes ([] : List Entry) ⟨c4staleCache⟩).1 ≠
      freshDetectChanges ([] : List Entry) := by decide

set_option maxRecDepth 4096 in
/-- Claim C4 amended: `get_current_status` and `get_recent` reload the
cache fresh from the file (their results are functions of the file
alone), but `detect_changes` and `detect_anomalies` compute on the cache
exactly as it stands — their results are independent of the current file
contents and they leave the state unchanged. -/
theorem c4_no_reload :
    ∀ (file file' : List Entry) (st : ParserState) (rsrpThr latThr : Int)
      (count : Nat),
    (api_detect_changes file st).1 = detect_changes st.cache ∧
    (api_detect_changes file st).1 = (api_detect_changes file' st).1 ∧
    (api_detect_changes file st).2 = st ∧
    (api_detect_anomalies file st rsrpThr latThr).1 =
      detect_anomalies st.cache rsrpThr latThr ∧
    (api_detect_anomalies file st rsrpThr latThr).1 =
      (api_detect_anomalies file' st rsrpThr latThr).1 ∧
    (api_detect_anomalies file st rsrpThr latThr).2 = st ∧
    (api_get_recent file st count).1 = pyTail count (reload_logs file).cache ∧
    (api_get_status file st).1 = (reload_logs file).cache.getLast? := by
  intro file file' st rsrpThr latThr count
  refine ⟨rfl, rfl, rfl, rfl, rfl, rfl, rfl, rfl⟩

/-- Counterexample to claim C2 as stated: after a successful cycle whose
record shows `wan_status = "Connected"`, a cycle in which
`get_connection_status` raises emits an *empty* `wan_status`, not the
previous record's value — `safe_get` defaults to `{}`, and `main` keeps
no last-known device snapshot. -/
theorem c2_counterexample :
    (monitorCycle c2cycleOk "").1.wan_status = "Connected" ∧
    c2cycleFail.connection = none ∧
    (monitorCycle c2cycleFail (monitorCycle c2cycleOk "").2).1.wan_status = "" ∧
    (monitorCycle c2cycleFail (monitorCycle c2cycleOk "").2).1.wan_status ≠
      (monitorCycle c2cycleOk "").1.wan_status := by decide

/-- Claim C2 amended: when a collector accessor throws or times out, the
emitted record's corresponding fields are *empty strings* (the `safe_get`
empty-dict default), irrespective of any previous record; only the
public-IP field falls back to its last-known value. -/
theorem c2_failed_accessor_fields_empty :
    ∀ (inp : CycleInput) (lastIp : String),
    (inp.connection = none →
      (monitorCycle inp lastIp).1.wan_status = "" ∧
      (monitorCycle inp lastIp).1.wan_source = "" ∧
      (monitorCycle inp lastIp).1.device_ipv4 = "") ∧
    (inp.signal = none →
      (monitorCycle inp lastIp).1.rsrp = "" ∧
      (monitorCycle inp lastIp).1.rsrq = "" ∧
      (monitorCycle inp lastIp).1.snr = "" ∧
      (monitorCycle inp lastIp).1.rssi = "") ∧
    (inp.netInfo = none →
      (monitorCycle inp lastIp).1.carrier = "" ∧
      (monitorCycle inp lastIp).1.technology = "" ∧
      (monitorCycle inp lastIp).1.band = "" ∧
      (monitorCycle inp lastIp).1.bandwidth = "") ∧
    (inp.simInfo = none →
      (monitorCycle inp lastIp).1.apn = "" ∧
      (monitorCycle inp lastIp).1.iccid = "" ∧
      (monitorCycle inp lastIp).1.sim_status = "") ∧
    (inp.deviceInfo = none →
      (monitorCycle inp lastIp).1.model = "" ∧
      (monitorCycle inp lastIp).1.manufacturer = "" ∧
      (monitorCycle inp lastIp).1.firmware = "" ∧
      (monitorCycle inp lastIp).1.imei = "" ∧
      (monitorCycle inp lastIp).1.serial = "") ∧
    (inp.ping = none →
      (monitorCycle inp lastIp).1.source_ip = "" ∧
      (monitorCycle inp lastIp).1.success = "False" ∧
      (monitorCycle inp lastIp).1.latency_ms = "") ∧
    (inp.publicIpFetch = none →
      (monitorCycle inp lastIp).1.public_ip = lastIp ∧
      (monitorCycle inp lastIp).2 = lastIp) := by
  intro inp lastIp
  refine ⟨?_, ?_, ?_, ?_, ?_, ?_, ?_⟩ <;> intro h <;>
    simp [monitorCycle, h, orEmpty, intOrEmpty, pyBoolStr]

/-- Witness for C2's amended rule at the concrete failing cycle. -/
theorem c2_failed_accessor_fields_empty_witness :
    (monitorCycle c2cycleFail "9.9.9.9").1.wan_status = "" ∧
    (monitorCycle c2cycleFail "9.9.9.9").1.rsrp = "" :=
  ⟨((c2_failed_accessor_fields_empty c2cycleFail "9.9.9.9").1 (by decide)).1,
   ((c2_failed_accessor_fields_empty c2cycleFail "9.9.9.9").2.1 (by decide)).1⟩

/-- Claim C1: the code evaluated at the failing input.  The default
device type builds the Inseego FX3110 scraping collector, whose class
(and the shared base class) defines no `refresh_data`, so the
scheduler's unconditional `cellular.refresh_data()` raises
`AttributeError` for the default fx3110 — only the FX4200 and Teltonika
collectors define it. -/
theorem c1_fx3110_missing_refresh_data :
    build_cellular_collector "fx3110" = DeviceType.fx3110 ∧
    build_cellular_collector " FX3110 " = DeviceType.fx3110 ∧
    "refresh_data" ∉ collectorMethods DeviceType.fx3110 ∧
    (∀ b : Bool, callRefreshData (build_cellular_collector "fx3110") b =
      Except.error "AttributeError") ∧
    (∀ b : Bool, callRefreshData DeviceType.fx4200 b = Except.ok b) ∧
    (∀ b : Bool, callRefreshData DeviceType.rutm50 b = Except.ok b) := by
  refine ⟨by decide, by decide, by decide, fun b => ?_, fun b => ?_,
    fun b => ?_⟩ <;> cases b <;> decide

/-- `_authenticate` posts no method-call payload. -/
theorem authenticate_callPosts (cfg : RpcCfg) (s : RpcState) :
    (authenticate cfg s).1.callPosts = s.callPosts := by
  unfold authenticate
  rcases hr : s.authResponses with _ | ⟨r, rest⟩
  · rfl
  · cases r with
    | error e => rfl
    | ok o => cases o <;> rfl

/-- `_ensure_session` posts no method-call payload. -/
theorem ensureSession_callPosts (cfg : RpcCfg) (s : RpcState) :
    (ensureSession cfg s).1.callPosts = s.callPosts := by
  unfold ensureSession
  split
  · rfl
  · exact authenticate_callPosts cfg s

/-- `_raw_post` of the call payload posts it exactly once. -/
theorem rawPostCall_callPosts (s : RpcState) :
    (rawPostCall s).1.callPosts = s.callPosts + 1 := by
  unfold rawPostCall
  rcases hr : s.callResponses with _ | ⟨r, rest⟩
  · rfl
  · cases r <;> rfl

/-- The tail of `_ubus_call` posts the payload at most once more (the
bare-non-zero-return-code retry). -/
theorem finishCall_callPosts (cfg : RpcCfg) (s : RpcState) (resp : UbusResp) :
    (finishCall cfg s resp).1.callPosts ≤ s.callPosts + 1 := by
  have h0 : ({ s with token := none } : RpcState).callPosts = s.callPosts := rfl
  have hE := ensureSession_callPosts cfg { s with token := none }
  have hP := rawPostCall_callPosts (ensureSession cfg { s with token := none }).1
  simp only [finishCall]
  split
  · show s.callPosts ≤ s.callPosts + 1
    omega
  · split
    · split
      · show (ensureSession cfg { s with token := none }).1.callPosts ≤
          s.callPosts + 1
        omega
      · split
        · show (rawPostCall
              (ensureSession cfg { s with token := none }).1).1.callPosts ≤
            s.callPosts + 1
          omega
        · split <;>
            · show (rawPostCall
                  (ensureSession cfg { s with token := none }).1).1.callPosts ≤
                s.callPosts + 1
              omega
    · show s.callPosts ≤ s.callPosts + 1
      omega

/-- `_ubus_call` posts its payload at most three times: the initial post,
the error-response retry, and the bare-non-zero-return-code retry. -/
theorem ubusCall_callPosts (cfg : RpcCfg) (s0 : RpcState) :
    (ubusCall cfg s0).1.callPosts ≤ s0.callPosts + 3 := by
  have hE1 := ensureSession_callPosts cfg s0
  have hP1 := rawPostCall_callPosts (ensureSession cfg s0).1
  have h0 : ({ (rawPostCall (ensureSession cfg s0).1).1 with
        token := none } : RpcState).callPosts
      = (rawPostCall (ensureSession cfg s0).1).1.callPosts := rfl
  have hE2 := ensureSession_callPosts cfg
    { (rawPostCall (ensureSession cfg s0).1).1 with token := none }
  have hP2 := rawPostCall_callPosts
    (ensureSession cfg
      { (rawPostCall (ensureSession cfg s0).1).1 with token := none }).1
  simp only [ubusCall]
  split
  · show (ensureSession cfg s0).1.callPosts ≤ s0.callPosts + 3
    omega
  · split
    · show (rawPostCall (ensureSession cfg s0).1).1.callPosts ≤ s0.callPosts + 3
      omega
    · split
      · split
        · refine le_trans (le_of_eq (ensureSession_callPosts cfg _)) ?_
          show (rawPostCall (ensureSession cfg s0).1).1.callPosts ≤
            s0.callPosts + 3
          omega
        · split
          · refine le_trans (le_of_eq (rawPostCall_callPosts _)) ?_
            refine le_trans
              (Nat.add_le_add_right (le_of_eq (ensureSession_callPosts cfg _)) 1) ?_
            show (rawPostCall (ensureSession cfg s0).1).1.callPosts + 1 ≤
              s0.callPosts + 3
            omega
          · refine le_trans (finishCall_callPosts cfg _ _) ?_
            refine le_trans
              (Nat.add_le_add_right (le_of_eq (rawPostCall_callPosts _)) 1) ?_
            refine le_trans (Nat.add_le_add_right
              (Nat.add_le_add_right (le_of_eq (ensureSession_callPosts cfg _)) 1) 1) ?_
            show (rawPostCall (ensureSession cfg s0).1).1.callPosts + 1 + 1 ≤
              s0.callPosts + 3
            omega
      · exact le_trans (finishCall_callPosts cfg _ _) (by omega)

/-- Counterexample to claim C3 as stated: in the `c3trace` run a single
`_ubus_call` posts its payload three times (an error-response retry
*and* a bare-non-zero-return-code retry — two retries, not "never more
than one"), and in the `c3doubleErr` run the retried call fails again
yet the call returns an empty dict instead of propagating an auth
error. -/
theorem c3_counterexample :
    (ubusCall {} c3trace).1.callPosts = 3 ∧
    ¬ (ubusCall {} c3trace).1.callPosts ≤ 2 ∧
    (ubusCall {} c3trace).2 = .ok [("k", "v")] ∧
    (ubusCall {} c3doubleErr).2 = .ok [] ∧
    (∀ e : RpcErr, (ubusCall {} c3doubleErr).2 ≠ .error e) := by
  refine ⟨by decide, by decide, by decide, by decide, fun e => ?_⟩
  cases e <;> decide

/-- Claim C3 amended: an error-reported response discards the token and
triggers one re-authentication + retry, but a *second* failure does not
propagate as an auth error — an error reply on the retry makes the call
return an empty dict — and a bare non-zero return code triggers one
further re-authentication + retry, so a single call can post its payload
up to three times (two retries); only a failed re-authentication itself
raises. -/
theorem c3_ubus_call_retries :
    (∀ (cfg : RpcCfg) (s : RpcState),
      (ubusCall cfg s).1.callPosts ≤ s.callPosts + 3) ∧
    (∀ (cfg : RpcCfg) (s : RpcState) (t : String)
       (rest : List (Except Unit UbusResp))
       (arest : List (Except Unit (Option String))),
      isSessionValid cfg s = true →
      s.callResponses = .ok .err :: .ok .err :: rest →
      s.authResponses = .ok (some t) :: arest →
      (ubusCall cfg s).2 = .ok []) := by
  constructor
  · exact ubusCall_callPosts
  · intro cfg s t rest arest hval hcall hauth
    obtain ⟨tok, created, ar, cr, cp, ap⟩ := s
    simp only at hcall hauth
    subst hcall
    subst hauth
    simp only [isSessionValid, Bool.and_eq_true, decide_eq_true_eq] at hval
    obtain ⟨hv1, hv2⟩ := hval
    simp [ubusCall, ensureSession, isSessionValid, rawPostCall, authenticate,
      finishCall, resultItems, item1Dict, item0NonZero, hv1, hv2]

/-- Witness for C3's amended behavior: the posting bound at the concrete
trace, and the empty-dict outcome of the double-error run. -/
theorem c3_ubus_call_retries_witness :
    (ubusCall {} c3trace).1.callPosts ≤ c3trace.callPosts + 3 ∧
    (ubusCall {} c3doubleErr).2 = .ok [] :=
  ⟨c3_ubus_call_retries.1 {} c3trace,
   c3_ubus_call_retries.2 {} c3doubleErr "tok1" [] []
     (by decide) (by decide) (by decide)⟩

/-- A successful batch returns one bundle entry per requested key, in
order. -/
theorem runBatch_keys (cfg : RpcCfg) :
    ∀ (ks : List String) (s s' : RpcState) (data : List (String × UDict)),
      runBatch cfg ks s = (s', .ok data) → data.map Prod.fst = ks := by
  intro ks
  induction ks with
  | nil =>
    intro s s' data h
    simp only [runBatch, Prod.mk.injEq, Except.ok.injEq] at h
    rw [← h.2]
    rfl
  | cons k ks ih =>
    intro s s' data h
    simp only [runBatch] at h
    rcases hc : ubusCall cfg s with ⟨s1, r⟩
    rw [hc] at h
    cases r with
    | error e => simp at h
    | ok d =>
      rcases hb : runBatch cfg ks s1 with ⟨s2, rr⟩
      rw [hb] at h
      cases rr with
      | ok rest =>
        simp only [Prod.mk.injEq, Except.ok.injEq] at h
        rw [← h.2]
        simp only [List.map_cons, List.cons.injEq, true_and]
        exact ih s1 s2 rest hb
      | error e => simp at h

/-- Claim C10: `refresh_data` is total (every exception is caught inside
it, yielding `False`) and atomic: the cached bundle is replaced only
when every RPC of the fixed batch has completed — on success the new
bundle holds exactly the 13 batch keys, and on failure the previous
bundle is left unchanged. -/
theorem c10_refresh_atomic :
    ∀ (cfg : RpcCfg) (st : FxState),
    ((refreshData cfg st).1 = true ∨ (refreshData cfg st).1 = false) ∧
    ((refreshData cfg st).1 = false →
      (refreshData cfg st).2.cached = st.cached) ∧
    ((refreshData cfg st).1 = true →
      (refreshData cfg st).2.cached.map Prod.fst = refreshKeys) := by
  intro cfg st
  simp only [refreshData]
  split
  · exact ⟨Or.inr rfl, fun _ => rfl, fun h => by simp at h⟩
  · split
    · rename_i s' data heq
      exact ⟨Or.inl rfl, fun h => by simp at h,
        fun _ => runBatch_keys cfg refreshKeys _ s' data heq⟩
    · exact ⟨Or.inr rfl, fun _ => rfl, fun h => by simp at h⟩

/-- Witness for C10 at concrete transports: a batch that dies after five
replies reports failure and keeps the old bundle; a full batch reports
success with all 13 keys cached. -/
theorem c10_refresh_atomic_witness :
    (refreshData {} c10fail).2.cached = c10fail.cached ∧
    (refreshData {} c10good).2.cached.map Prod.fst = refreshKeys :=
  ⟨(c10_refresh_atomic {} c10fail).2.1 (by decide),
   (c10_refresh_atomic {} c10good).2.2 (by decide)⟩

end FXMon
